import Mathlib

/-!
# Log-analyzer: shallow embedding and verification

A shallow embedding in Lean 4 of the Go program `main2.go` from the
Log-analyzer repository, together with theorems settling the specification
claims about it.

Modelling conventions:
* Go maps (`map[string]string`, `map[string]interface{}`) are modelled as
  association lists with first-match lookup (a Go map has unique keys, so
  assoc-list lookup agrees with map lookup on well-formed configurations).
* `interface{}` filter values, as produced by `encoding/json`, are modelled
  by the `FilterSpec` inductive: a string, a list of strings (the code
  asserts every list element is a string with `ev.(string)`), or `other`
  for every unsupported dynamic shape (hit by the `default` branch).
* File-system and OS effects (checksum I/O, seeks, scanner errors, output
  writes) are supplied by a `TickEnv` record describing what the outside
  world returns during one tick, and observable actions (application-log
  writes via `logMessage`, stdout prints, categorizer invocation, file
  writes) are recorded in a trace of `Event`s.
* `encoding/json` marshalling is modelled at the level of a JSON value
  tree (`JsonValue`), not character strings: `json.Marshal` of a record
  yields the object with the struct's tagged fields, `json.Unmarshal`
  reads each tagged field back, using Go zero values for absent fields
  and failing on type mismatches.
-/

/--
The record type `WXAnalyticsLogRecordEntry` of `main2.go`.  The struct
declaration in the source copy is truncated after `Height`; the
`EventType` field is reconstructed from its uses (`entry.EventType` in
`parse` and `e.EventType` in `createFilter`), with JSON tag `eventType`
matching the camel-case style of the other tags.  Go `int64`/`int`
fields are modelled as `Int`.
-/
structure WXAnalyticsLogRecordEntry where
  TimeMS : Int
  StreamID : String
  TotalBytesReceived : Int
  BytesTransferred : Int
  DurationMS : Int
  Width : Int
  Height : Int
  EventType : String
deriving DecidableEq, Repr

/--
A filter value for one event type, as decoded from JSON into
`interface{}` and inspected by the type switch in `createFilter`:
a single string, a list of strings (`[]interface{}` whose elements the
code asserts to be strings), or any other dynamic shape (`other`),
which falls into the `default` branch.
-/
inductive FilterSpec where
  | str (s : String)
  | list (l : List String)
  | other
deriving DecidableEq, Repr

/-- The `Config` struct of `main2.go`; the two maps are association lists. -/
structure Config where
  LogFilePath : String
  OutputFiles : List (String × String)
  EventFilters : List (String × FilterSpec)
  BatchInterval : String
  MonitorPeriod : String

/--
Model of `createFilter` from `main2.go`: looks the event type up in the filters
map; a missing entry is an error, a string yields an equality predicate
on the record's event type, a list of strings yields a membership
predicate (the Go code builds a `map[string]bool` of allowed values;
membership in that map is membership in the list), and any other shape
is an error.
-/
def createFilter (eventType : String) (filters : List (String × FilterSpec)) :
    Except String (WXAnalyticsLogRecordEntry → Bool) :=
  match filters.lookup eventType with
  | none => .error ("no filter found for event type: " ++ eventType)
  | some (.str v) => .ok (fun e => e.EventType == v)
  | some (.list v) => .ok (fun e => v.contains e.EventType)
  | some .other => .error ("unsupported filter type for event type: " ++ eventType)

/--
CLAIM C1: for a configured event type whose filter is the single string `s`,
`createFilter` returns a predicate passing exactly the records whose
event type equals `s`; for a filter that is a list of strings,
`createFilter` returns a predicate passing exactly the records whose
event type is a member of the list.
-/
theorem createFilter_filter_semantics
    (eventType : String) (filters : List (String × FilterSpec))
    (e : WXAnalyticsLogRecordEntry) :
    (∀ s : String, filters.lookup eventType = some (.str s) →
      ∃ f, createFilter eventType filters = .ok f ∧ (f e = true ↔ e.EventType = s)) ∧
    (∀ l : List String, filters.lookup eventType = some (.list l) →
      ∃ f, createFilter eventType filters = .ok f ∧ (f e = true ↔ e.EventType ∈ l)) := by
  constructor
  · intro s hs
    refine ⟨fun e => e.EventType == s, ?_, ?_⟩
    · simp [createFilter, hs]
    · simp
  · intro l hl
    refine ⟨fun e => l.contains e.EventType, ?_, ?_⟩
    · simp [createFilter, hl]
    · simp [List.contains_iff_exists_mem_beq, eq_comm]

/-- Witness for C1: concrete filters exercising both the single-string and the list case. -/
theorem createFilter_filter_semantics_witness :
    ([("A", FilterSpec.str "upload"), ("B", FilterSpec.list ["upload", "download"])].lookup "A"
        = some (.str "upload")) ∧
    ([("A", FilterSpec.str "upload"), ("B", FilterSpec.list ["upload", "download"])].lookup "B"
        = some (.list ["upload", "download"])) ∧
    (∃ f, createFilter "A" [("A", FilterSpec.str "upload"), ("B", FilterSpec.list ["upload", "download"])] = .ok f ∧
      (f ⟨1, "s", 0, 0, 0, 0, 0, "upload"⟩ = true ↔
        (⟨1, "s", 0, 0, 0, 0, 0, "upload"⟩ : WXAnalyticsLogRecordEntry).EventType = "upload")) ∧
    (∃ f, createFilter "B" [("A", FilterSpec.str "upload"), ("B", FilterSpec.list ["upload", "download"])] = .ok f ∧
      (f ⟨1, "s", 0, 0, 0, 0, 0, "download"⟩ = true ↔
        (⟨1, "s", 0, 0, 0, 0, 0, "download"⟩ : WXAnalyticsLogRecordEntry).EventType ∈ ["upload", "download"])) := by
  refine ⟨by decide, by decide, ?_, ?_⟩
  · exact (createFilter_filter_semantics "A" _ _).1 "upload" (by decide)
  · exact (createFilter_filter_semantics "B" _ _).2 ["upload", "download"] (by decide)

/--
The deduplication key built in `parse`:
`fmt.Sprintf("%d-%s-%s", entry.TimeMS, entry.StreamID, entry.EventType)`.
-/
def entryKey (e : WXAnalyticsLogRecordEntry) : String :=
  toString e.TimeMS ++ "-" ++ e.StreamID ++ "-" ++ e.EventType

/--
Go's `%v` rendering of a record (used in the duplicate-skip log message):
the field values in declaration order, space-separated, between braces.
-/
def entryGoString (e : WXAnalyticsLogRecordEntry) : String :=
  "\x7b" ++ toString e.TimeMS ++ " " ++ e.StreamID ++ " " ++
    toString e.TotalBytesReceived ++ " " ++ toString e.BytesTransferred ++ " " ++
    toString e.DurationMS ++ " " ++ toString e.Width ++ " " ++
    toString e.Height ++ " " ++ e.EventType ++ "\x7d"

/--
The per-line outcome of the first half of the `parse` loop body
(`jsonRegex.FindString` followed by `json.Unmarshal`): the line has no
brace-delimited match (skipped silently), the matched substring fails to
decode (error printed to stdout, line skipped), or it decodes to a record.
-/
inductive LineResult where
  | noMatch (line : String)
  | decodeError (line : String) (err : String)
  | record (e : WXAnalyticsLogRecordEntry)
deriving DecidableEq, Repr

/--
An observable action of one tick: an application-log line written by
`logMessage`, a `fmt.Printf` to stdout, the invocation of `categorize`
with its batch, or an append of records to an output file.
-/
inductive Event where
  | log (msg : String)
  | stdoutPrint (msg : String)
  | categorizeCall (entries : List WXAnalyticsLogRecordEntry)
  | write (path : String) (entries : List WXAnalyticsLogRecordEntry)
deriving DecidableEq, Repr

/--
The scanning loop of `parse` from `main2.go`, over the per-line outcomes
of the lines scanned in this window.  `seen` is the global `seenEntries`
set (a `map[string]bool`, modelled as the list of keys stored as `true`).
Returns the updated seen-set, the retained records in input order, and
the trace of log/stdout events.
-/
def parseLines (seen : List String) :
    List LineResult → List String × List WXAnalyticsLogRecordEntry × List Event
  | [] => (seen, [], [])
  | .noMatch _ :: rest => parseLines seen rest
  | .decodeError line err :: rest =>
      let r := parseLines seen rest
      (r.1, r.2.1, .stdoutPrint ("Error parsing line: " ++ line ++ ", error: " ++ err) :: r.2.2)
  | .record e :: rest =>
      if seen.contains (entryKey e) then
        let r := parseLines seen rest
        (r.1, r.2.1, .log ("Duplicate entry detected and skipped: " ++ entryGoString e) :: r.2.2)
      else
        let r := parseLines (entryKey e :: seen) rest
        (r.1, e :: r.2.1, r.2.2)

/-- The records a window's lines decode to, before deduplication. -/
def decodedRecords : List LineResult → List WXAnalyticsLogRecordEntry
  | [] => []
  | .record e :: rest => e :: decodedRecords rest
  | .noMatch _ :: rest => decodedRecords rest
  | .decodeError _ _ :: rest => decodedRecords rest


lemma parseLines_nil (seen : List String) : parseLines seen [] = (seen, [], []) := rfl

lemma parseLines_noMatch (seen : List String) (line : String) (rest : List LineResult) :
    parseLines seen (.noMatch line :: rest) = parseLines seen rest := rfl

lemma parseLines_decodeError (seen : List String) (line err : String) (rest : List LineResult) :
    parseLines seen (.decodeError line err :: rest) =
      ((parseLines seen rest).1, (parseLines seen rest).2.1,
        .stdoutPrint ("Error parsing line: " ++ line ++ ", error: " ++ err)
          :: (parseLines seen rest).2.2) := rfl

lemma parseLines_record_dup (seen : List String) (e : WXAnalyticsLogRecordEntry)
    (rest : List LineResult) (h : entryKey e ∈ seen) :
    parseLines seen (.record e :: rest) =
      ((parseLines seen rest).1, (parseLines seen rest).2.1,
        .log ("Duplicate entry detected and skipped: " ++ entryGoString e)
          :: (parseLines seen rest).2.2) := by
  simp [parseLines, h]

lemma parseLines_record_fresh (seen : List String) (e : WXAnalyticsLogRecordEntry)
    (rest : List LineResult) (h : entryKey e ∉ seen) :
    parseLines seen (.record e :: rest) =
      ((parseLines (entryKey e :: seen) rest).1,
        e :: (parseLines (entryKey e :: seen) rest).2.1,
        (parseLines (entryKey e :: seen) rest).2.2) := by
  simp [parseLines, h]

lemma parseLines_fresh_and_pairwise (lines : List LineResult) :
    ∀ seen : List String,
      (∀ e ∈ (parseLines seen lines).2.1, entryKey e ∉ seen) ∧
      (parseLines seen lines).2.1.Pairwise (fun a b => entryKey a ≠ entryKey b) := by
  induction lines with
  | nil => intro seen; simp [parseLines_nil]
  | cons l rest ih =>
    intro seen
    cases l with
    | noMatch line => simpa [parseLines_noMatch] using ih seen
    | decodeError line err => simpa [parseLines_decodeError] using ih seen
    | record e =>
      by_cases hseen : entryKey e ∈ seen
      · simpa [parseLines_record_dup seen e rest hseen] using ih seen
      · have ihe := ih (entryKey e :: seen)
        have hx : ∀ x ∈ (parseLines (entryKey e :: seen) rest).2.1,
            entryKey x ≠ entryKey e ∧ entryKey x ∉ seen := by
          intro x hmem
          have h := ihe.1 x hmem
          simp only [List.mem_cons, not_or] at h
          exact h
        rw [parseLines_record_fresh seen e rest hseen]
        refine ⟨?_, ?_⟩
        · intro x hmem
          rcases List.mem_cons.mp hmem with rfl | hmem
          · exact hseen
          · exact (hx x hmem).2
        · exact List.pairwise_cons.mpr
            ⟨fun x hmem h => (hx x hmem).1 h.symm, ihe.2⟩

lemma parseLines_sublist (lines : List LineResult) :
    ∀ seen : List String,
      List.Sublist (parseLines seen lines).2.1 (decodedRecords lines) := by
  induction lines with
  | nil => intro seen; simp [parseLines_nil, decodedRecords]
  | cons l rest ih =>
    intro seen
    cases l with
    | noMatch line => simpa [parseLines_noMatch, decodedRecords] using ih seen
    | decodeError line err => simpa [parseLines_decodeError, decodedRecords] using ih seen
    | record e =>
      by_cases hseen : entryKey e ∈ seen
      · rw [parseLines_record_dup seen e rest hseen]
        exact (ih seen).cons e
      · rw [parseLines_record_fresh seen e rest hseen]
        exact (ih (entryKey e :: seen)).cons₂ e

lemma parseLines_first_retained (pre : List LineResult) :
    ∀ (seen : List String) (post : List LineResult) (e : WXAnalyticsLogRecordEntry),
      entryKey e ∉ seen →
      (∀ x ∈ decodedRecords pre, entryKey x ≠ entryKey e) →
      e ∈ (parseLines seen (pre ++ .record e :: post)).2.1 := by
  induction pre with
  | nil =>
    intro seen post e hfresh _
    rw [List.nil_append, parseLines_record_fresh seen e post hfresh]
    exact List.mem_cons_self e _
  | cons l rest ih =>
    intro seen post e hfresh hfirst
    cases l with
    | noMatch line =>
      rw [List.cons_append, parseLines_noMatch]
      exact ih seen post e hfresh (fun x hx => hfirst x (by simpa [decodedRecords] using hx))
    | decodeError line err =>
      rw [List.cons_append, parseLines_decodeError]
      exact ih seen post e hfresh (fun x hx => hfirst x (by simpa [decodedRecords] using hx))
    | record x =>
      have hxe : entryKey x ≠ entryKey e := hfirst x (by simp [decodedRecords])
      by_cases hseen : entryKey x ∈ seen
      · rw [List.cons_append, parseLines_record_dup seen x _ hseen]
        exact ih seen post e hfresh (fun y hy => hfirst y (by simp [decodedRecords, hy]))
      · rw [List.cons_append, parseLines_record_fresh seen x _ hseen]
        refine List.mem_cons_of_mem x ?_
        refine ih (entryKey x :: seen) post e ?_ (fun y hy => hfirst y (by simp [decodedRecords, hy]))
        simp only [List.mem_cons, not_or]
        exact ⟨fun h => hxe h.symm, hfresh⟩

/--
CLAIM C2 (amended): within one read window, deduplication is by the full
identity key (timestamp, stream id, event type).  If a line decodes to a
record `e` whose identity key is not in the seen-set and no earlier line
of the window decodes to a record with the same identity key, then `e`
is retained; no two retained records share an identity key (so every
later occurrence with the same identity key is skipped), and the
retained records form a subsequence of the decoded records.
-/
theorem parse_dedup_by_identity_key
    (seen : List String) (pre post : List LineResult)
    (e : WXAnalyticsLogRecordEntry)
    (hfresh : entryKey e ∉ seen)
    (hfirst : ∀ x ∈ decodedRecords pre, entryKey x ≠ entryKey e) :
    e ∈ (parseLines seen (pre ++ .record e :: post)).2.1 ∧
    (parseLines seen (pre ++ .record e :: post)).2.1.Pairwise
      (fun a b => entryKey a ≠ entryKey b) ∧
    List.Sublist (parseLines seen (pre ++ .record e :: post)).2.1
      (decodedRecords (pre ++ .record e :: post)) :=
  ⟨parseLines_first_retained pre seen post e hfresh hfirst,
   (parseLines_fresh_and_pairwise (pre ++ .record e :: post) seen).2,
   parseLines_sublist (pre ++ .record e :: post) seen⟩

/--
Witness for C2 (amended), at a window holding the same record twice:
the first occurrence is retained (and by pairwise-distinctness of keys
the second occurrence is skipped).
-/
theorem parse_dedup_by_identity_key_witness :
    entryKey ⟨10, "s1", 0, 0, 0, 0, 0, "upload"⟩ ∉ ([] : List String) ∧
    (⟨10, "s1", 0, 0, 0, 0, 0, "upload"⟩ : WXAnalyticsLogRecordEntry) ∈
      (parseLines [] ([] ++ .record ⟨10, "s1", 0, 0, 0, 0, 0, "upload"⟩ ::
        [.record ⟨10, "s1", 0, 0, 0, 0, 0, "upload"⟩])).2.1 :=
  ⟨by decide,
   (parse_dedup_by_identity_key [] []
      [.record ⟨10, "s1", 0, 0, 0, 0, 0, "upload"⟩]
      ⟨10, "s1", 0, 0, 0, 0, 0, "upload"⟩
      (by decide) (by intro x hx; cases hx)).1⟩

/--
Counterexample to CLAIM C2 as stated: two parsed lines whose records have
an identical (timestamp, stream id) pair but different event types are
BOTH retained — the later occurrence is not skipped, because the
deduplication key also includes the event type.
-/
theorem parse_pair_dedup_counterexample :
    ((⟨10, "s1", 0, 0, 0, 0, 0, "upload"⟩ : WXAnalyticsLogRecordEntry).TimeMS
        = (⟨10, "s1", 0, 0, 0, 0, 0, "download"⟩ : WXAnalyticsLogRecordEntry).TimeMS) ∧
    ((⟨10, "s1", 0, 0, 0, 0, 0, "upload"⟩ : WXAnalyticsLogRecordEntry).StreamID
        = (⟨10, "s1", 0, 0, 0, 0, 0, "download"⟩ : WXAnalyticsLogRecordEntry).StreamID) ∧
    (parseLines [] [.record ⟨10, "s1", 0, 0, 0, 0, 0, "upload"⟩,
        .record ⟨10, "s1", 0, 0, 0, 0, 0, "download"⟩]).2.1
      = [⟨10, "s1", 0, 0, 0, 0, 0, "upload"⟩, ⟨10, "s1", 0, 0, 0, 0, 0, "download"⟩] := by
  refine ⟨rfl, rfl, ?_⟩
  decide

/--
A JSON value tree, the level at which `encoding/json` marshalling and
unmarshalling of records is modelled (string serialisation and
re-lexing are inverse by construction and are not re-modelled here).
-/
inductive JsonValue where
  | num (n : Int)
  | str (s : String)
  | bool (b : Bool)
  | null
  | arr (elems : List JsonValue)
  | obj (fields : List (String × JsonValue))

/--
Model of `json.Marshal` of a `WXAnalyticsLogRecordEntry`: the JSON object with the
struct's tagged fields in declaration order (`timeMs`, `streamId`,
`totalByteReceived`, `byteTransferred`, `durationMs`, `width`, `height`,
and the reconstructed `eventType`).
-/
def marshalEntry (e : WXAnalyticsLogRecordEntry) : JsonValue :=
  .obj [("timeMs", .num e.TimeMS),
        ("streamId", .str e.StreamID),
        ("totalByteReceived", .num e.TotalBytesReceived),
        ("byteTransferred", .num e.BytesTransferred),
        ("durationMs", .num e.DurationMS),
        ("width", .num e.Width),
        ("height", .num e.Height),
        ("eventType", .str e.EventType)]

/--
Reading one integer struct field during `json.Unmarshal`: an absent key
decodes to the Go zero value `0`, a JSON number decodes to its value,
and any other JSON value is a type-mismatch error.
-/
def getIntField (fields : List (String × JsonValue)) (name : String) : Except String Int :=
  match fields.lookup name with
  | none => .ok 0
  | some (.num n) => .ok n
  | some _ => .error ("json: cannot unmarshal value into field " ++ name)

/--
Reading one string struct field during `json.Unmarshal`: an absent key
decodes to the Go zero value `""`, a JSON string decodes to itself, and
any other JSON value is a type-mismatch error.
-/
def getStringField (fields : List (String × JsonValue)) (name : String) : Except String String :=
  match fields.lookup name with
  | none => .ok ""
  | some (.str s) => .ok s
  | some _ => .error ("json: cannot unmarshal value into field " ++ name)

/--
Model of `json.Unmarshal` into a `WXAnalyticsLogRecordEntry`: reads each tagged
field of the JSON object (extra keys are ignored, absent keys decode to
zero values); a non-object input is an error.
-/
def unmarshalEntry : JsonValue → Except String WXAnalyticsLogRecordEntry
  | .obj fields => do
      let t ← getIntField fields "timeMs"
      let sid ← getStringField fields "streamId"
      let tbr ← getIntField fields "totalByteReceived"
      let bt ← getIntField fields "byteTransferred"
      let d ← getIntField fields "durationMs"
      let w ← getIntField fields "width"
      let h ← getIntField fields "height"
      let et ← getStringField fields "eventType"
      .ok ⟨t, sid, tbr, bt, d, w, h, et⟩
  | _ => .error "json: cannot unmarshal non-object value into WXAnalyticsLogRecordEntry"

/--
The content the `writeToFile` loop of `main2.go` appends to an output
file: one marshalled record per line, in batch order.
-/
def writtenLines (entries : List WXAnalyticsLogRecordEntry) : List JsonValue :=
  entries.map marshalEntry

lemma unmarshal_marshal (e : WXAnalyticsLogRecordEntry) :
    unmarshalEntry (marshalEntry e) = .ok e := rfl

/--
CLAIM C7: decoding each line that `writeToFile` appends for a batch of
records, with a JSON decoder using the same record shape, recovers the
original records field for field.
-/
theorem writeToFile_json_roundtrip (entries : List WXAnalyticsLogRecordEntry) :
    (writtenLines entries).map unmarshalEntry = entries.map Except.ok := by
  induction entries with
  | nil => rfl
  | cons e rest ih =>
    simp only [writtenLines, List.map_cons] at ih ⊢
    rw [unmarshal_marshal, ih]

/--
The body of the `categorize` loop of `main2.go` for one entry
`(eventType, filePath)` of the `OutputFiles` map: create the filter (on
failure, log and move to the next event type), filter the batch, and if
any record matched, append the filtered records to the destination file
(`writeResult` supplies the outcome of `writeToFile` for a path; a write
failure is logged).  The resulting observable events are returned.
-/
def categorizeOne (entries : List WXAnalyticsLogRecordEntry) (config : Config)
    (writeResult : String → Option String) (p : String × String) : List Event :=
  match createFilter p.1 config.EventFilters with
  | .error err => [.log ("Error creating filter for " ++ p.1 ++ ": " ++ err)]
  | .ok filter =>
      let filteredEntries := entries.filter filter
      if filteredEntries.length > 0 then
        match writeResult p.2 with
        | some err => [.log ("Error writing to file " ++ p.2 ++ ": " ++ err)]
        | none => [.write p.2 filteredEntries]
      else []

/--
Model of `categorize` from `main2.go`: iterates over the `OutputFiles` map
(modelled as an association list, fixing an iteration order) and always
returns `nil` (`none`) as its error, plus the trace of events.
-/
def categorize (entries : List WXAnalyticsLogRecordEntry) (config : Config)
    (writeResult : String → Option String) : Option String × List Event :=
  (none, (config.OutputFiles.map (categorizeOne entries config writeResult)).flatten)

/--
CLAIM C5: a filter specification of an unsupported shape, or an absent
one, fails locally: within a pass, the event type at such a failure
contributes exactly one `Error creating filter` application-log entry
(no write), while every other configured event type before and after it
in the same pass is filtered and written exactly as it would otherwise
be, and the pass is not aborted (`categorize` still returns `nil`).
-/
theorem categorize_filter_failure_local
    (entries : List WXAnalyticsLogRecordEntry) (config : Config)
    (writeResult : String → Option String) (et path : String)
    (pre post : List (String × String))
    (hsplit : config.OutputFiles = pre ++ (et, path) :: post)
    (hshape : config.EventFilters.lookup et = none ∨
      config.EventFilters.lookup et = some .other) :
    (categorize entries config writeResult).1 = none ∧
    ∃ msg, createFilter et config.EventFilters = .error msg ∧
      (categorize entries config writeResult).2 =
        (pre.map (categorizeOne entries config writeResult)).flatten ++
          .log ("Error creating filter for " ++ et ++ ": " ++ msg) ::
            (post.map (categorizeOne entries config writeResult)).flatten := by
  have herr : ∃ msg, createFilter et config.EventFilters = .error msg := by
    rcases hshape with h | h
    · exact ⟨"no filter found for event type: " ++ et, by simp [createFilter, h]⟩
    · exact ⟨"unsupported filter type for event type: " ++ et, by simp [createFilter, h]⟩
  rcases herr with ⟨msg, hmsg⟩
  refine ⟨rfl, msg, hmsg, ?_⟩
  simp [categorize, hsplit, categorizeOne, hmsg]

/--
Witness for C5: a configuration with two output files where the first
event type has a filter of unsupported shape; its failure is logged and
the second event type is still written.
-/
theorem categorize_filter_failure_local_witness :
    ((⟨"log", [("A", "a.out"), ("B", "b.out")],
        [("A", FilterSpec.other), ("B", FilterSpec.str "upload")], "", ""⟩ : Config).OutputFiles
      = [] ++ ("A", "a.out") :: [("B", "b.out")]) ∧
    ((⟨"log", [("A", "a.out"), ("B", "b.out")],
        [("A", FilterSpec.other), ("B", FilterSpec.str "upload")], "", ""⟩ : Config).EventFilters.lookup "A"
      = some .other) ∧
    ((categorize [⟨1, "s", 0, 0, 0, 0, 0, "upload"⟩]
        ⟨"log", [("A", "a.out"), ("B", "b.out")],
          [("A", FilterSpec.other), ("B", FilterSpec.str "upload")], "", ""⟩
        (fun _ => none)).1 = none ∧
      ∃ msg, createFilter "A"
          (⟨"log", [("A", "a.out"), ("B", "b.out")],
            [("A", FilterSpec.other), ("B", FilterSpec.str "upload")], "", ""⟩ : Config).EventFilters
          = .error msg ∧
        (categorize [⟨1, "s", 0, 0, 0, 0, 0, "upload"⟩]
            ⟨"log", [("A", "a.out"), ("B", "b.out")],
              [("A", FilterSpec.other), ("B", FilterSpec.str "upload")], "", ""⟩
            (fun _ => none)).2 =
          (([] : List (String × String)).map (categorizeOne [⟨1, "s", 0, 0, 0, 0, 0, "upload"⟩]
              ⟨"log", [("A", "a.out"), ("B", "b.out")],
                [("A", FilterSpec.other), ("B", FilterSpec.str "upload")], "", ""⟩
              (fun _ => none))).flatten ++
            .log ("Error creating filter for " ++ "A" ++ ": " ++ msg) ::
              ([("B", "b.out")].map (categorizeOne [⟨1, "s", 0, 0, 0, 0, 0, "upload"⟩]
                ⟨"log", [("A", "a.out"), ("B", "b.out")],
                  [("A", FilterSpec.other), ("B", FilterSpec.str "upload")], "", ""⟩
                (fun _ => none))).flatten) :=
  ⟨rfl, rfl,
   categorize_filter_failure_local _ _ _ "A" "a.out" [] [("B", "b.out")] rfl (Or.inr rfl)⟩

/--
CLAIM C10: `categorize` never propagates an error to its caller — its
returned error is always `nil` — and therefore the caller's
`Error categorizing log entries` branch contributes nothing to the
tick's trace.
-/
theorem categorize_never_errors
    (entries : List WXAnalyticsLogRecordEntry) (config : Config)
    (writeResult : String → Option String) :
    (categorize entries config writeResult).1 = none ∧
    (match (categorize entries config writeResult).1 with
      | some err => [Event.log ("Error categorizing log entries: " ++ err)]
      | none => ([] : List Event)) = [] :=
  ⟨rfl, rfl⟩

/-- The comparison used by `sort.Slice` in `processLogFile`: ascending `TimeMS`. -/
def entryLE (a b : WXAnalyticsLogRecordEntry) : Prop :=
  a.TimeMS ≤ b.TimeMS

instance : DecidableRel entryLE :=
  fun a b => inferInstanceAs (Decidable (a.TimeMS ≤ b.TimeMS))

instance : IsTotal WXAnalyticsLogRecordEntry entryLE :=
  ⟨fun a b => Int.le_total a.TimeMS b.TimeMS⟩

instance : IsTrans WXAnalyticsLogRecordEntry entryLE :=
  ⟨fun _ _ _ => Int.le_trans⟩

/--
The `sort.Slice(entries, func(i, j) { TimeMS i < TimeMS j })` call of
`processLogFile`, modelled as a sort by nondecreasing timestamp (Go's
`sort.Slice` is unstable and guarantees exactly a sorted permutation;
insertion sort realises one such permutation).
-/
def sortEntries (entries : List WXAnalyticsLogRecordEntry) :
    List WXAnalyticsLogRecordEntry :=
  List.insertionSort entryLE entries

/--
The process-wide mutable state of `main2.go`: the globals `lastChecksum`,
`lastReadPosition` and `seenEntries` (the dedup set, as the list of keys
stored as `true`).
-/
structure ProcState where
  lastChecksum : String
  lastReadPosition : Int
  seenEntries : List String
deriving DecidableEq, Repr

/--
What the outside world returns during one tick of `processLogFile`:
the checksum computation's outcome, the error (if any) of the seek to
`lastReadPosition`, the per-line outcomes of the window scanned by
`parse`, the scanner's final error, the per-path outcome of
`writeToFile`, and the pair returned by `file.Seek(0, io.SeekCurrent)`
(the current position, plus an error if any).
-/
structure TickEnv where
  checksumResult : Except String String
  seekError : Option String
  lines : List LineResult
  scanError : Option String
  writeResult : String → Option String
  finalSeek : Int × Option String

/--
Model of `processLogFile` from `main2.go`, as a transition on `ProcState`
producing the tick's observable events.  Faithful details: the stored
checksum is updated *before* the seek and parse steps; on a scanner
error the dedup-set insertions already made by `parse` are kept but the
pass stops; on success the dedup set is cleared and `lastReadPosition`
receives whatever `file.Seek(0, io.SeekCurrent)` returned (also when
that call errors).
-/
def processLogFile (st : ProcState) (config : Config) (env : TickEnv) :
    ProcState × List Event :=
  match env.checksumResult with
  | .error err => (st, [.log ("Error calculating checksum: " ++ err)])
  | .ok checksum =>
    if checksum == st.lastChecksum then
      (st, [.log "No changes detected in the log file, skipping processing."])
    else
      let st1 : ProcState := { st with lastChecksum := checksum }
      match env.seekError with
      | some err => (st1, [.log ("Error seeking to last read position: " ++ err)])
      | none =>
        let pr := parseLines st1.seenEntries env.lines
        let st2 : ProcState := { st1 with seenEntries := pr.1 }
        match env.scanError with
        | some err =>
            (st2, pr.2.2 ++
              [.log ("Error parsing log file: " ++ "error reading file: " ++ err)])
        | none =>
          let sorted := sortEntries pr.2.1
          let cat := categorize sorted config env.writeResult
          let catEvents : List Event :=
            match cat.1 with
            | some err => [Event.log ("Error categorizing log entries: " ++ err)]
            | none => []
          let st3 : ProcState :=
            { st2 with seenEntries := [], lastReadPosition := env.finalSeek.1 }
          let seekEvents : List Event :=
            match env.finalSeek.2 with
            | some err => [.log ("Error updating last read position: " ++ err)]
            | none => []
          (st3, pr.2.2 ++ .categorizeCall sorted :: (cat.2 ++ catEvents ++ seekEvents))

/--
CLAIM C3: on a tick whose computed checksum equals the stored one, the
pass is a no-op: the state (stored checksum, read offset, dedup set) is
unchanged and the trace is exactly one skip message — in particular the
parser and the categorizer are not invoked.
-/
theorem checksum_gate_noop (st : ProcState) (config : Config) (env : TickEnv)
    (h : env.checksumResult = .ok st.lastChecksum) :
    processLogFile st config env =
      (st, [.log "No changes detected in the log file, skipping processing."]) := by
  simp [processLogFile, h]

/--
Witness for C3 at a concrete state and tick whose checksum matches.
-/
theorem checksum_gate_noop_witness :
    (TickEnv.mk (.ok "abc123") none [.record ⟨10, "s1", 0, 0, 0, 0, 0, "upload"⟩]
        none (fun _ => none) (7, none)).checksumResult
      = .ok (ProcState.mk "abc123" 5 ["k"]).lastChecksum ∧
    processLogFile (ProcState.mk "abc123" 5 ["k"])
        ⟨"log", [("A", "a.out")], [("A", FilterSpec.str "upload")], "", ""⟩
        (TickEnv.mk (.ok "abc123") none [.record ⟨10, "s1", 0, 0, 0, 0, 0, "upload"⟩]
          none (fun _ => none) (7, none)) =
      (ProcState.mk "abc123" 5 ["k"],
        [.log "No changes detected in the log file, skipping processing."]) :=
  ⟨rfl,
   checksum_gate_noop (ProcState.mk "abc123" 5 ["k"])
     ⟨"log", [("A", "a.out")], [("A", FilterSpec.str "upload")], "", ""⟩
     (TickEnv.mk (.ok "abc123") none [.record ⟨10, "s1", 0, 0, 0, 0, 0, "upload"⟩]
       none (fun _ => none) (7, none)) rfl⟩

lemma parseLines_events_shape (lines : List LineResult) :
    ∀ (seen : List String) (es : List WXAnalyticsLogRecordEntry),
      Event.categorizeCall es ∉ (parseLines seen lines).2.2 := by
  induction lines with
  | nil => intro seen es; simp [parseLines_nil]
  | cons l rest ih =>
    intro seen es
    cases l with
    | noMatch line => simpa [parseLines_noMatch] using ih seen es
    | decodeError line err =>
      rw [parseLines_decodeError]
      simp only [List.mem_cons, not_or]
      exact ⟨by simp, ih seen es⟩
    | record e =>
      by_cases hseen : entryKey e ∈ seen
      · rw [parseLines_record_dup seen e rest hseen]
        simp only [List.mem_cons, not_or]
        exact ⟨by simp, ih seen es⟩
      · rw [parseLines_record_fresh seen e rest hseen]
        exact ih (entryKey e :: seen) es

lemma categorizeOne_events_shape (entries : List WXAnalyticsLogRecordEntry)
    (config : Config) (writeResult : String → Option String)
    (p : String × String) (es : List WXAnalyticsLogRecordEntry) :
    Event.categorizeCall es ∉ categorizeOne entries config writeResult p := by
  unfold categorizeOne
  rcases createFilter p.1 config.EventFilters with err | filter
  · simp
  · simp only []
    by_cases hlen : (entries.filter filter).length > 0
    · simp only [hlen, if_pos]
      rcases writeResult p.2 with _ | err <;> simp
    · simp [hlen]

lemma categorize_events_shape (entries : List WXAnalyticsLogRecordEntry)
    (config : Config) (writeResult : String → Option String)
    (es : List WXAnalyticsLogRecordEntry) :
    Event.categorizeCall es ∉ (categorize entries config writeResult).2 := by
  simp only [categorize, List.mem_flatten, List.mem_map]
  rintro ⟨evs, ⟨p, _, rfl⟩, hmem⟩
  exact categorizeOne_events_shape entries config writeResult p es hmem

lemma processLogFile_checksum_error (st : ProcState) (config : Config)
    (env : TickEnv) (err : String) (h : env.checksumResult = .error err) :
    processLogFile st config env =
      (st, [.log ("Error calculating checksum: " ++ err)]) := by
  simp [processLogFile, h]

lemma processLogFile_skip (st : ProcState) (config : Config) (env : TickEnv)
    (h : env.checksumResult = .ok st.lastChecksum) :
    processLogFile st config env =
      (st, [.log "No changes detected in the log file, skipping processing."]) := by
  simp [processLogFile, h]

lemma processLogFile_seek_error (st : ProcState) (config : Config) (env : TickEnv)
    (checksum err : String)
    (h1 : env.checksumResult = .ok checksum) (h2 : checksum ≠ st.lastChecksum)
    (h3 : env.seekError = some err) :
    processLogFile st config env =
      ({ st with lastChecksum := checksum },
        [.log ("Error seeking to last read position: " ++ err)]) := by
  simp [processLogFile, h1, h2, h3]

lemma processLogFile_parse_error (st : ProcState) (config : Config) (env : TickEnv)
    (checksum err : String)
    (h1 : env.checksumResult = .ok checksum) (h2 : checksum ≠ st.lastChecksum)
    (h3 : env.seekError = none) (h4 : env.scanError = some err) :
    processLogFile st config env =
      (⟨checksum, st.lastReadPosition, (parseLines st.seenEntries env.lines).1⟩,
        (parseLines st.seenEntries env.lines).2.2 ++
          [.log ("Error parsing log file: " ++ "error reading file: " ++ err)]) := by
  simp [processLogFile, h1, h2, h3, h4]

lemma processLogFile_success (st : ProcState) (config : Config) (env : TickEnv)
    (checksum : String)
    (h1 : env.checksumResult = .ok checksum) (h2 : checksum ≠ st.lastChecksum)
    (h3 : env.seekError = none) (h4 : env.scanError = none) :
    processLogFile st config env =
      (⟨checksum, env.finalSeek.1, []⟩,
        (parseLines st.seenEntries env.lines).2.2 ++
          .categorizeCall (sortEntries (parseLines st.seenEntries env.lines).2.1) ::
            ((categorize (sortEntries (parseLines st.seenEntries env.lines).2.1)
                config env.writeResult).2 ++
              match env.finalSeek.2 with
              | some err => [.log ("Error updating last read position: " ++ err)]
              | none => [])) := by
  simp [processLogFile, h1, h2, h3, h4, categorize]

/--
CLAIM C6: whenever a tick invokes the categorizer, the batch it receives
is sorted ascending by timestamp.
-/
theorem categorizer_receives_sorted
    (st : ProcState) (config : Config) (env : TickEnv)
    (es : List WXAnalyticsLogRecordEntry)
    (h : Event.categorizeCall es ∈ (processLogFile st config env).2) :
    es.Sorted entryLE := by
  rcases henv : env.checksumResult with err | checksum
  · rw [processLogFile_checksum_error st config env err henv] at h
    simp at h
  · by_cases hck : checksum = st.lastChecksum
    · subst hck
      rw [processLogFile_skip st config env henv] at h
      simp at h
    · rcases hseek : env.seekError with _ | err
      · rcases hscan : env.scanError with _ | err
        · rw [processLogFile_success st config env checksum henv hck hseek hscan] at h
          rcases List.mem_append.mp h with h | h
          · exact absurd h (parseLines_events_shape env.lines st.seenEntries es)
          · rcases List.mem_cons.mp h with h | h
            · cases h
              exact List.sorted_insertionSort entryLE _
            · rcases List.mem_append.mp h with h | h
              · exact absurd h (categorize_events_shape _ config env.writeResult es)
              · rcases hfs : env.finalSeek.2 with _ | err <;> rw [hfs] at h <;> simp at h
        · rw [processLogFile_parse_error st config env checksum err henv hck hseek hscan] at h
          rcases List.mem_append.mp h with h | h
          · exact absurd h (parseLines_events_shape env.lines st.seenEntries es)
          · simp at h
      · rw [processLogFile_seek_error st config env checksum err henv hck hseek] at h
        simp at h

/--
Witness for C6: a tick whose window decodes records with timestamps
[30, 10, 20]; the categorizer receives them ordered [10, 20, 30], a
sorted batch.
-/
theorem categorizer_receives_sorted_witness :
    Event.categorizeCall
        [⟨10, "s1", 0, 0, 0, 0, 0, "upload"⟩, ⟨20, "s1", 0, 0, 0, 0, 0, "upload"⟩,
          ⟨30, "s1", 0, 0, 0, 0, 0, "upload"⟩] ∈
      (processLogFile (ProcState.mk "old" 0 [])
        ⟨"log", [], [], "", ""⟩
        (TickEnv.mk (.ok "new") none
          [.record ⟨30, "s1", 0, 0, 0, 0, 0, "upload"⟩,
            .record ⟨10, "s1", 0, 0, 0, 0, 0, "upload"⟩,
            .record ⟨20, "s1", 0, 0, 0, 0, 0, "upload"⟩]
          none (fun _ => none) (0, none))).2 ∧
    List.Sorted entryLE
      [⟨10, "s1", 0, 0, 0, 0, 0, "upload"⟩, ⟨20, "s1", 0, 0, 0, 0, 0, "upload"⟩,
        ⟨30, "s1", 0, 0, 0, 0, 0, "upload"⟩] := by
  refine ⟨by decide, ?_⟩
  exact categorizer_receives_sorted (ProcState.mk "old" 0 [])
    ⟨"log", [], [], "", ""⟩
    (TickEnv.mk (.ok "new") none
      [.record ⟨30, "s1", 0, 0, 0, 0, 0, "upload"⟩,
        .record ⟨10, "s1", 0, 0, 0, 0, 0, "upload"⟩,
        .record ⟨20, "s1", 0, 0, 0, 0, 0, "upload"⟩]
      none (fun _ => none) (0, none)) _ (by decide)

/--
CLAIM C8: after a pass that reaches completion (checksum computed and
different, seek succeeded, scan succeeded, final position query
succeeded), the stored read offset equals the current file position
returned by `file.Seek(0, io.SeekCurrent)`, the dedup set is empty, and
the stored checksum is the pass's computed checksum — checksum and
offset are carried into the next pass rather than being reset.
-/
theorem pass_completion_state (st : ProcState) (config : Config) (env : TickEnv)
    (checksum : String) (pos : Int)
    (h1 : env.checksumResult = .ok checksum) (h2 : checksum ≠ st.lastChecksum)
    (h3 : env.seekError = none) (h4 : env.scanError = none)
    (h5 : env.finalSeek = (pos, none)) :
    (processLogFile st config env).1 = ⟨checksum, pos, []⟩ := by
  rw [processLogFile_success st config env checksum h1 h2 h3 h4, h5]

/--
Witness for C8 at a concrete completed pass: the offset becomes the
current position 42, the dedup set is cleared, the checksum persists.
-/
theorem pass_completion_state_witness :
    ((TickEnv.mk (.ok "new") none [.record ⟨10, "s1", 0, 0, 0, 0, 0, "upload"⟩]
        none (fun _ => none) (42, none)).checksumResult = .ok "new") ∧
    ("new" ≠ (ProcState.mk "old" 7 ["stale-key"]).lastChecksum) ∧
    (processLogFile (ProcState.mk "old" 7 ["stale-key"])
        ⟨"log", [("A", "a.out")], [("A", FilterSpec.str "upload")], "", ""⟩
        (TickEnv.mk (.ok "new") none [.record ⟨10, "s1", 0, 0, 0, 0, 0, "upload"⟩]
          none (fun _ => none) (42, none))).1 = ⟨"new", 42, []⟩ :=
  ⟨rfl, by decide,
   pass_completion_state (ProcState.mk "old" 7 ["stale-key"])
     ⟨"log", [("A", "a.out")], [("A", FilterSpec.str "upload")], "", ""⟩
     (TickEnv.mk (.ok "new") none [.record ⟨10, "s1", 0, 0, 0, 0, 0, "upload"⟩]
       none (fun _ => none) (42, none))
     "new" 42 rfl (by decide) rfl rfl rfl⟩

/-- A concrete process state used to exhibit claim C4's tick behaviour. -/
def stC4 : ProcState := ⟨"old", 0, []⟩

/-- A concrete configuration with one output file and a string filter. -/
def cfgC4 : Config := ⟨"log", [("A", "a.out")], [("A", FilterSpec.str "upload")], "", ""⟩

/-- A concrete record matching `cfgC4`'s filter. -/
def recC4 : WXAnalyticsLogRecordEntry := ⟨10, "s1", 0, 0, 0, 0, 0, "upload"⟩

/-- A tick whose checksum computation fails. -/
def envC4ck : TickEnv := ⟨.error "io fail", none, [], none, fun _ => none, (0, none)⟩

/-- A tick whose seek to the stored offset fails. -/
def envC4seek : TickEnv :=
  ⟨.ok "new", some "disk error", [.record recC4], none, fun _ => none, (42, none)⟩

/-- A tick whose scanner fails after reading one record line. -/
def envC4parse : TickEnv :=
  ⟨.ok "new", none, [.record recC4], some "scan fail", fun _ => none, (42, none)⟩

/-- A tick whose output-file write fails. -/
def envC4write : TickEnv :=
  ⟨.ok "new", none, [.record recC4], none, fun _ => some "disk full", (42, none)⟩

/-- A retry tick over the same file content, with all I/O succeeding. -/
def envC4retry : TickEnv :=
  ⟨.ok "new", none, [.record recC4], none, fun _ => none, (42, none)⟩

/--
CLAIM C4 (amended): every per-tick failure is logged to the application
log, the affected step (and the remainder of the tick it aborts) is
skipped, and the poller keeps ticking: (a) a checksum I/O error skips
the whole tick leaving the state unchanged; (b) a seek error skips the
rest of the tick; (c) a scanner (parse) error skips the categorizer,
keeping the dedup insertions already made; (d) a per-event-type write
failure is logged, that write is dropped, and the pass continues
(`categorize` still returns `nil`).  But ticks are NOT fresh independent
attempts: the stored checksum is updated before the seek and parse
steps, so (e) after a tick failing at the seek or at the parse, a next
tick over the same file content hits the checksum gate and skips the
work instead of re-attempting it.
-/
theorem tick_failures_logged_not_independent
    (st : ProcState) (config : Config) (env env2 : TickEnv)
    (checksum err : String) :
    (env.checksumResult = .error err →
      processLogFile st config env =
        (st, [.log ("Error calculating checksum: " ++ err)])) ∧
    (env.checksumResult = .ok checksum → checksum ≠ st.lastChecksum →
      env.seekError = some err →
      processLogFile st config env =
        ({ st with lastChecksum := checksum },
          [.log ("Error seeking to last read position: " ++ err)])) ∧
    (env.checksumResult = .ok checksum → checksum ≠ st.lastChecksum →
      env.seekError = none → env.scanError = some err →
      processLogFile st config env =
        (⟨checksum, st.lastReadPosition, (parseLines st.seenEntries env.lines).1⟩,
          (parseLines st.seenEntries env.lines).2.2 ++
            [.log ("Error parsing log file: " ++ "error reading file: " ++ err)]) ∧
      ∀ es, Event.categorizeCall es ∉ (processLogFile st config env).2) ∧
    (∀ (entries : List WXAnalyticsLogRecordEntry)
        (filter : WXAnalyticsLogRecordEntry → Bool) (p : String × String),
      createFilter p.1 config.EventFilters = .ok filter →
      (entries.filter filter).length > 0 →
      env.writeResult p.2 = some err →
      categorizeOne entries config env.writeResult p =
        [.log ("Error writing to file " ++ p.2 ++ ": " ++ err)] ∧
      (categorize entries config env.writeResult).1 = none) ∧
    (env.checksumResult = .ok checksum → checksum ≠ st.lastChecksum →
      (env.seekError = some err ∨ (env.seekError = none ∧ env.scanError = some err)) →
      env2.checksumResult = .ok checksum →
      processLogFile (processLogFile st config env).1 config env2 =
        ((processLogFile st config env).1,
          [.log "No changes detected in the log file, skipping processing."])) := by
  refine ⟨?_, ?_, ?_, ?_, ?_⟩
  · intro h
    exact processLogFile_checksum_error st config env err h
  · intro h1 h2 h3
    exact processLogFile_seek_error st config env checksum err h1 h2 h3
  · intro h1 h2 h3 h4
    refine ⟨processLogFile_parse_error st config env checksum err h1 h2 h3 h4, ?_⟩
    intro es hmem
    rw [processLogFile_parse_error st config env checksum err h1 h2 h3 h4] at hmem
    rcases List.mem_append.mp hmem with h | h
    · exact parseLines_events_shape env.lines st.seenEntries es h
    · simp at h
  · intro entries filter p hf hlen hw
    constructor
    · simp [categorizeOne, hf, hlen, hw]
    · rfl
  · intro h1 h2 hfail h4
    rcases hfail with h3 | ⟨h3, h3s⟩
    · rw [processLogFile_seek_error st config env checksum err h1 h2 h3]
      exact processLogFile_skip _ config env2 h4
    · rw [processLogFile_parse_error st config env checksum err h1 h2 h3 h3s]
      exact processLogFile_skip _ config env2 h4

/--
Witness for C4 (amended): each failure kind at a concrete tick — a
checksum error, a seek error, a scanner error (after which the
categorizer is provably not invoked), a write error — and the
checksum-gate skip of a same-content retry tick after both the
seek-failed and the parse-failed tick.
-/
theorem tick_failures_logged_not_independent_witness :
    (processLogFile stC4 cfgC4 envC4ck =
      (stC4, [.log ("Error calculating checksum: " ++ "io fail")])) ∧
    (processLogFile stC4 cfgC4 envC4seek =
      ({ stC4 with lastChecksum := "new" },
        [.log ("Error seeking to last read position: " ++ "disk error")])) ∧
    (processLogFile stC4 cfgC4 envC4parse =
      (⟨"new", stC4.lastReadPosition, (parseLines stC4.seenEntries envC4parse.lines).1⟩,
        (parseLines stC4.seenEntries envC4parse.lines).2.2 ++
          [.log ("Error parsing log file: " ++ "error reading file: " ++ "scan fail")])) ∧
    (Event.categorizeCall (sortEntries [recC4]) ∉ (processLogFile stC4 cfgC4 envC4parse).2) ∧
    (categorizeOne [recC4] cfgC4 envC4write.writeResult ("A", "a.out") =
      [.log ("Error writing to file " ++ "a.out" ++ ": " ++ "disk full")]) ∧
    ((categorize [recC4] cfgC4 envC4write.writeResult).1 = none) ∧
    (processLogFile (processLogFile stC4 cfgC4 envC4seek).1 cfgC4 envC4retry =
      ((processLogFile stC4 cfgC4 envC4seek).1,
        [.log "No changes detected in the log file, skipping processing."])) ∧
    (processLogFile (processLogFile stC4 cfgC4 envC4parse).1 cfgC4 envC4retry =
      ((processLogFile stC4 cfgC4 envC4parse).1,
        [.log "No changes detected in the log file, skipping processing."])) := by
  have hck := (tick_failures_logged_not_independent stC4 cfgC4 envC4ck envC4retry
    "new" "io fail").1 rfl
  have hseek := (tick_failures_logged_not_independent stC4 cfgC4 envC4seek envC4retry
    "new" "disk error").2.1 rfl (by decide) rfl
  have hparse := (tick_failures_logged_not_independent stC4 cfgC4 envC4parse envC4retry
    "new" "scan fail").2.2.1 rfl (by decide) rfl rfl
  have hwrite := (tick_failures_logged_not_independent stC4 cfgC4 envC4write envC4retry
    "new" "disk full").2.2.2.1 [recC4] (fun e => e.EventType == "upload") ("A", "a.out")
    rfl (by decide) rfl
  have hretryS := (tick_failures_logged_not_independent stC4 cfgC4 envC4seek envC4retry
    "new" "disk error").2.2.2.2 rfl (by decide) (Or.inl rfl) rfl
  have hretryP := (tick_failures_logged_not_independent stC4 cfgC4 envC4parse envC4retry
    "new" "scan fail").2.2.2.2 rfl (by decide) (Or.inr ⟨rfl, rfl⟩) rfl
  exact ⟨hck, hseek, hparse.1, hparse.2 (sortEntries [recC4]), hwrite.1, hwrite.2,
    hretryS, hretryP⟩

/--
Counterexample to CLAIM C4 as stated: after a tick that fails at the
seek step, a second tick over the same (still unprocessed) file content
is NOT a fresh attempt: the checksum stored by the failed tick makes the
second tick skip all work, whereas the same second tick run from the
pre-failure state would have parsed and categorized the content.
-/
theorem tick_independence_counterexample :
    (processLogFile (ProcState.mk "old" 0 [])
        ⟨"log", [("A", "a.out")], [("A", FilterSpec.str "upload")], "", ""⟩
        (TickEnv.mk (.ok "new") (some "disk error")
          [.record ⟨10, "s1", 0, 0, 0, 0, 0, "upload"⟩] none (fun _ => none)
          (42, none))).2
      = [.log ("Error seeking to last read position: disk error")] ∧
    (processLogFile (processLogFile (ProcState.mk "old" 0 [])
        ⟨"log", [("A", "a.out")], [("A", FilterSpec.str "upload")], "", ""⟩
        (TickEnv.mk (.ok "new") (some "disk error")
          [.record ⟨10, "s1", 0, 0, 0, 0, 0, "upload"⟩] none (fun _ => none)
          (42, none))).1
        ⟨"log", [("A", "a.out")], [("A", FilterSpec.str "upload")], "", ""⟩
        (TickEnv.mk (.ok "new") none
          [.record ⟨10, "s1", 0, 0, 0, 0, 0, "upload"⟩] none (fun _ => none)
          (42, none))).2
      = [.log "No changes detected in the log file, skipping processing."] ∧
    (processLogFile (ProcState.mk "old" 0 [])
        ⟨"log", [("A", "a.out")], [("A", FilterSpec.str "upload")], "", ""⟩
        (TickEnv.mk (.ok "new") none
          [.record ⟨10, "s1", 0, 0, 0, 0, 0, "upload"⟩] none (fun _ => none)
          (42, none))).2
      ≠ [.log "No changes detected in the log file, skipping processing."] := by
  refine ⟨?_, ?_, ?_⟩ <;> decide

/-- The destination stream of a console message printed during startup. -/
inductive OutChannel where
  | stdout
  | stderr
deriving DecidableEq, Repr

/--
How startup ends: the process terminates with an exit status, or
proceeds to monitoring.  A bare `return` from Go's `main` terminates the
process with status 0, which is how the configuration-load failure path
exits (no explicit status code).
-/
inductive StartupOutcome where
  | exit (code : Nat)
  | proceed
deriving DecidableEq, Repr

/--
The startup prefix of `main` from `main2.go`, up to and including
configuration loading: if the `-config` flag is absent (the flag's
default value is the empty string), `fmt.Println` writes the error to
STDOUT and `os.Exit(1)` terminates; if `loadConfig` fails, `fmt.Printf`
writes the error to STDOUT and `main` returns (process exit status 0);
otherwise startup proceeds to monitoring.
-/
def mainStartup (configFlag : String) (loadResult : Except String Config) :
    StartupOutcome × List (OutChannel × String) :=
  if configFlag == "" then
    (.exit 1,
      [(.stdout, "Error: Configuration file path must be specified using the -config flag.")])
  else
    match loadResult with
    | .error err => (.exit 0, [(.stdout, "Error loading configuration: " ++ err)])
    | .ok _ => (.proceed, [])

/--
CLAIM C9 (amended): if the required configuration-path CLI flag is
absent, the process exits with the non-zero status 1 and a STDOUT (not
stderr) error message; if configuration loading fails, the process exits
early with a STDOUT message and no explicit status code (a plain return
from `main`, status 0).
-/
theorem startup_error_behavior
    (configFlag : String) (loadResult : Except String Config) (err : String) :
    (configFlag = "" →
      mainStartup configFlag loadResult =
        (.exit 1,
          [(.stdout,
            "Error: Configuration file path must be specified using the -config flag.")])) ∧
    (configFlag ≠ "" → loadResult = .error err →
      mainStartup configFlag loadResult =
        (.exit 0, [(.stdout, "Error loading configuration: " ++ err)])) := by
  constructor
  · intro h
    simp [mainStartup, h]
  · intro h hl
    simp [mainStartup, h, hl]

/--
Witness for C9 (amended): the missing-flag case and a failing-load case
at concrete inputs.
-/
theorem startup_error_behavior_witness :
    (mainStartup "" (.ok ⟨"log", [], [], "", ""⟩) =
      (.exit 1,
        [(.stdout,
          "Error: Configuration file path must be specified using the -config flag.")])) ∧
    (mainStartup "conf.json" (.error "boom") =
      (.exit 0, [(.stdout, "Error loading configuration: " ++ "boom")])) :=
  ⟨(startup_error_behavior "" (.ok ⟨"log", [], [], "", ""⟩) "boom").1 rfl,
   (startup_error_behavior "conf.json" (.error "boom") "boom").2 (by decide) rfl⟩

/--
Counterexample to CLAIM C9 as stated: with the flag absent the process
does exit with status 1, but the message is written to STDOUT — every
message the startup emits goes to stdout, so there is no stderr message.
-/
theorem startup_stderr_counterexample :
    (mainStartup "" (.error "unused")).1 = .exit 1 ∧
    (mainStartup "" (.error "unused")).2 ≠ [] ∧
    ((mainStartup "" (.error "unused")).2.all (fun m => m.1 == .stdout)) = true := by
  refine ⟨?_, ?_, ?_⟩ <;> decide
